import Mathlib

/-!
Shallow embedding of the three pipeline stages of the process-orchestrator
repository: `src/scripts/load_data.py` (Loader), `src/scripts/process_data.py`
(Transformer) and `src/scripts/analyze_results.py` (Analyzer).

Modelling conventions:

* The filesystem is a map from path strings to optional file contents.  A file
  is modelled by its byte length together with an optional parsed JSON
  document (`none` when the bytes are not a valid JSON document); no stage of
  the repository ever re-reads serialized bytes, so this pair captures
  everything the stages can observe about a file.
* `datetime.now().isoformat()` is nondeterministic; every stage receives a
  parameter `now : Nat → String` and its k-th call to `datetime.now()` within
  one invocation returns `now k`.
* `print` output is modelled as a list of structured `OutLine` values: a
  progress line, a usage line, an error line `Error <context>: <message>`, or
  one of the three machine-readable result lines `LOAD_RESULT: <json>`,
  `PROCESS_RESULT: <json>`, `ANALYZE_RESULT: <json>` carrying the result
  record that `json.dumps` would serialize.
* Numeric constants that are Python floats (for example `98.2`) are modelled
  as rationals; the stages never compute with them except `round(x, 2)` in
  the Analyzer, modelled on rationals.
-/

namespace ProcessOrchestrator

/-- One element of a LoadedDataset's `data` array:
`{"id": i, "value": f"record_{i}", "timestamp": ...}` (load_data.py line 22). -/
structure DataRecord where
  id : Int
  value : String
  timestamp : String
deriving DecidableEq, Repr

/-- The `metadata` object of a LoadedDataset (load_data.py lines 25-29). -/
structure LoadedMetadata where
  file_size : String
  format : String
  encoding : String
deriving DecidableEq, Repr

/-- The LoadedDataset document written by the Loader (load_data.py lines 17-30). -/
structure LoadedDataset where
  source_file : String
  loaded_at : String
  records_count : Int
  data : List DataRecord
  metadata : LoadedMetadata
deriving DecidableEq, Repr

/-- One element of a ProcessedDataset's `data` array (process_data.py lines 24-30). -/
structure ProcessedRecord where
  id : Int
  processed_value : String
  processed_timestamp : String
  original_timestamp : String
  transformation_applied : String
deriving DecidableEq, Repr

/-- The `metadata` object of a ProcessedDataset (process_data.py lines 44-48). -/
structure ProcessedMetadata where
  processing_time_ms : Nat
  memory_used_mb : ℚ
  transformations_count : Nat
deriving DecidableEq, Repr

/-- The ProcessedDataset document written by the Transformer
(process_data.py lines 34-49). -/
structure ProcessedDataset where
  source_file : String
  processed_at : String
  original_records_count : Int
  processed_records_count : Nat
  transformations : List String
  data : List ProcessedRecord
  metadata : ProcessedMetadata
deriving DecidableEq, Repr

/-- The `analysis_metrics` object of an AnalysisReport
(analyze_results.py lines 25-30). -/
structure AnalysisMetrics where
  processing_efficiency : ℚ
  data_quality_score : ℚ
  transformation_success_rate : ℚ
  performance_score : ℚ
deriving DecidableEq, Repr

/-- The `quality_checks` object of an AnalysisReport
(analyze_results.py lines 37-42). -/
structure QualityChecks where
  data_integrity : String
  format_validation : String
  completeness_check : String
  consistency_check : String
deriving DecidableEq, Repr

/-- The `summary` object of an AnalysisReport (analyze_results.py lines 43-50). -/
structure AnalysisSummary where
  total_tasks_completed : Nat
  successful_tasks : Nat
  failed_tasks : Nat
  overall_status : String
  processing_time_total : String
  data_volume_processed : String
deriving DecidableEq, Repr

/-- The AnalysisReport document written by the Analyzer
(analyze_results.py lines 20-51). -/
structure AnalysisReport where
  analysis_timestamp : String
  report_file : String
  report_size_bytes : Nat
  report_size_kb : ℚ
  analysis_metrics : AnalysisMetrics
  recommendations : List String
  quality_checks : QualityChecks
  summary : AnalysisSummary
deriving DecidableEq, Repr

/-- A parsed JSON document.  The three pipeline document shapes are listed
explicitly; `otherDoc` stands for any well-formed JSON document of a different
shape (on which the Transformer's field accesses would raise a
KeyError/TypeError), tagged so that distinct such documents exist. -/
inductive JsonDoc where
  | loadedDoc (d : LoadedDataset)
  | processedDoc (d : ProcessedDataset)
  | reportDoc (r : AnalysisReport)
  | otherDoc (tag : Nat)
deriving DecidableEq, Repr

/-- A file on disk: its byte length, and its content as a parsed JSON
document when the bytes are valid JSON (`doc = none` means the bytes do not
parse as JSON).  The stages observe nothing else about a file: the Analyzer
reads only `size` (`os.path.getsize`), the Transformer only `doc`
(`json.load`). -/
structure FileData where
  size : Nat
  doc : Option JsonDoc
deriving DecidableEq, Repr

/-- The filesystem: a map from paths to files. -/
def FS : Type := String → Option FileData

/-- Writing a file at a path (overwrites any previous file there). -/
def writeFile (fs : FS) (path : String) (fd : FileData) : FS :=
  fun p => if p = path then some fd else fs p

/-- The characters of `cs` strictly before its last `'/'`; `none` when `cs`
contains no `'/'`. -/
def takeBeforeLastSlash : List Char → Option (List Char)
  | [] => none
  | c :: rest =>
    match takeBeforeLastSlash rest with
    | some tail => some (c :: tail)
    | none => if c = '/' then some [] else none

/-- Drop trailing `'/'` characters. -/
def rstripSlash (cs : List Char) : List Char :=
  (cs.reverse.dropWhile (fun c => c = '/')).reverse

/-- Model of Python `os.path.dirname` (posixpath): everything up to and
including the last `'/'`, with trailing slashes stripped unless the result
consists only of slashes; the empty string when the path has no `'/'`. -/
def dirname (p : String) : String :=
  match takeBeforeLastSlash p.toList with
  | none => ""
  | some before =>
    let head := before ++ ['/']
    if head.all (fun c => c = '/') then String.mk head else String.mk (rstripSlash head)

/-- Model of `os.makedirs(path, exist_ok=True)` on a writable filesystem: it
succeeds for every nonempty path, and raises FileNotFoundError (Errno 2) for
the empty string — which is what `os.path.dirname` returns for a bare
filename with no directory component. -/
def makedirs (path : String) : Except String Unit :=
  if path = "" then Except.error ("[Errno 2] No such file or directory") else Except.ok ()

/-- Byte length of the JSON text that `json.dump(doc, f, indent=2)` writes.
The exact count Python produces (whitespace, float repr) is not reproduced;
no stage ever re-reads serialized bytes — the Analyzer reads back only this
stored length and treats the file as opaque — so a fixed computable measure
of the document is adequate: total UTF-8 length of the string fields plus a
constant overhead per record and per document. -/
def DataRecord.encLen (r : DataRecord) : Nat :=
  r.value.utf8ByteSize + r.timestamp.utf8ByteSize + 48

/-- See `DataRecord.encLen`. -/
def LoadedDataset.encLen (d : LoadedDataset) : Nat :=
  d.source_file.utf8ByteSize + d.loaded_at.utf8ByteSize
    + (d.data.map DataRecord.encLen).sum + 160

/-- See `DataRecord.encLen`. -/
def ProcessedRecord.encLen (r : ProcessedRecord) : Nat :=
  r.processed_value.utf8ByteSize + r.processed_timestamp.utf8ByteSize
    + r.original_timestamp.utf8ByteSize + r.transformation_applied.utf8ByteSize + 96

/-- See `DataRecord.encLen`. -/
def ProcessedDataset.encLen (d : ProcessedDataset) : Nat :=
  d.source_file.utf8ByteSize + d.processed_at.utf8ByteSize
    + (d.transformations.map String.utf8ByteSize).sum
    + (d.data.map ProcessedRecord.encLen).sum + 256

/-- See `DataRecord.encLen`. -/
def AnalysisReport.encLen (r : AnalysisReport) : Nat :=
  r.analysis_timestamp.utf8ByteSize + r.report_file.utf8ByteSize
    + (r.recommendations.map String.utf8ByteSize).sum + 640

/-- See `DataRecord.encLen`. -/
def JsonDoc.encLen : JsonDoc → Nat
  | JsonDoc.loadedDoc d => d.encLen
  | JsonDoc.processedDoc d => d.encLen
  | JsonDoc.reportDoc r => r.encLen
  | JsonDoc.otherDoc tag => tag + 2

/-- Writing a freshly serialized JSON document to a path (`json.dump` into an
opened file). -/
def writeDoc (fs : FS) (path : String) (d : JsonDoc) : FS :=
  writeFile fs path ⟨d.encLen, some d⟩

/-- The dict returned by `load_data` and serialized onto the
`LOAD_RESULT:` line (load_data.py lines 40-45). -/
structure LoadResult where
  status : String
  records_loaded : Int
  output_file : String
  file_size : String
deriving DecidableEq, Repr

/-- The dict returned by `process_data` and serialized onto the
`PROCESS_RESULT:` line (process_data.py lines 59-65). -/
structure ProcessResult where
  status : String
  records_processed : Nat
  output_file : String
  processing_time_ms : Nat
  transformations_applied : List String
deriving DecidableEq, Repr

/-- The dict returned by `analyze_results` and serialized onto the
`ANALYZE_RESULT:` line (analyze_results.py lines 62-68). -/
structure AnalyzeResult where
  status : String
  analysis_file : String
  overall_status : String
  quality_score : ℚ
  recommendations_count : Nat
deriving DecidableEq, Repr

/-- One line printed to stdout.  `loadResult r` models the line
`LOAD_RESULT: <json.dumps r>` and similarly for the other two result
constructors; `errorLine ctx msg` models `Error <ctx>: <msg>`; `usage s`
models the usage line printed on wrong arity. -/
inductive OutLine where
  | progress (s : String)
  | usage (s : String)
  | errorLine (ctx : String) (msg : String)
  | loadResult (r : LoadResult)
  | processResult (r : ProcessResult)
  | analyzeResult (r : AnalyzeResult)
deriving DecidableEq, Repr

/-- The outcome of running one stage's body: the progress lines it printed,
the filesystem after it, and either its returned result dict or the message
of the exception it raised. -/
structure StageRun (R : Type) where
  lines : List OutLine
  fs : FS
  result : Except String R

/-- The observable outcome of one whole process invocation: everything
printed to stdout, the exit code, and the filesystem afterwards. -/
structure ProcessOutcome where
  stdout : List OutLine
  exitCode : Nat
  fs : FS

/-- The `sample_data` dict literal of load_data.py lines 17-30: 100 synthetic
records with ids 1..100 and `value = f"record_{id}"`, wrapped with the
constant `records_count = 1000`.  `datetime.now()` is called first for
`loaded_at`, then once per record. -/
def sampleData (input_file : String) (now : Nat → String) : LoadedDataset :=
  { source_file := input_file
    loaded_at := now 0
    records_count := 1000
    data := (List.range 100).map (fun (i : Nat) =>
      { id := (i + 1 : Int)
        value := "record_" ++ toString (i + 1)
        timestamp := now (i + 1) })
    metadata := { file_size := "2.5MB", format := "JSON", encoding := "UTF-8" } }

/-- The body of `load_data(input_file, output_file)` (load_data.py lines
12-45): print a progress line, fabricate `sample_data`, create the output's
parent directory, dump the dataset, print two more progress lines and return
the result dict.  The input path is never read. -/
def load_data (input_file output_file : String) (now : Nat → String) (fs : FS) :
    StageRun LoadResult :=
  let l0 := OutLine.progress ("Loading data from: " ++ input_file)
  let sample_data := sampleData input_file now
  match makedirs (dirname output_file) with
  | Except.error e => ⟨[l0], fs, Except.error e⟩
  | Except.ok _ =>
    let fs1 := writeDoc fs output_file (JsonDoc.loadedDoc sample_data)
    ⟨[l0,
      OutLine.progress ("Data loaded successfully. Records: "
        ++ toString sample_data.records_count),
      OutLine.progress ("Output saved to: " ++ output_file)],
     fs1,
     Except.ok
       { status := "success"
         records_loaded := sample_data.records_count
         output_file := output_file
         file_size := sample_data.metadata.file_size }⟩

/-- The per-record transformation of process_data.py lines 24-30: keep `id`,
uppercase `value` (`String.toUpper` models Python `str.upper`), stamp a fresh
timestamp, keep the original timestamp and tag the transformation name. -/
def transformRecord (ts : String) (record : DataRecord) : ProcessedRecord :=
  { id := record.id
    processed_value := record.value.toUpper
    processed_timestamp := ts
    original_timestamp := record.timestamp
    transformation_applied := "uppercase_conversion" }

/-- The `processed_data` dict literal of process_data.py lines 34-49, given
the already-transformed record list. -/
def processedData (input_file : String) (ts : String) (d : LoadedDataset)
    (processed_records : List ProcessedRecord) : ProcessedDataset :=
  { source_file := input_file
    processed_at := ts
    original_records_count := d.records_count
    processed_records_count := processed_records.length
    transformations := ["uppercase_conversion", "timestamp_normalization"]
    data := processed_records
    metadata := { processing_time_ms := 150, memory_used_mb := (25.5 : ℚ),
                  transformations_count := 2 } }

/-- The body of `process_data(input_file, output_file)` (process_data.py
lines 12-65): print a progress line, open and `json.load` the input (raises
FileNotFoundError when the file is missing, a JSON decode error when the
bytes are not valid JSON, and a KeyError/TypeError when the document lacks
the LoadedDataset shape), transform every record of `data`, build the
ProcessedDataset, create the output directory, dump it, print two more
progress lines and return the result dict.  In the loop `datetime.now()` is
called once per record, then once more for `processed_at`. -/
def process_data (input_file output_file : String) (now : Nat → String) (fs : FS) :
    StageRun ProcessResult :=
  let l0 := OutLine.progress ("Processing data from: " ++ input_file)
  match fs input_file with
  | none => ⟨[l0], fs, Except.error ("[Errno 2] No such file or directory: " ++ input_file)⟩
  | some fd =>
    match fd.doc with
    | none => ⟨[l0], fs, Except.error ("Expecting value: line 1 column 1 (char 0)")⟩
    | some (JsonDoc.loadedDoc d) =>
      let processed_records := d.data.mapIdx (fun i r => transformRecord (now i) r)
      let processed_data := processedData input_file (now d.data.length) d processed_records
      match makedirs (dirname output_file) with
      | Except.error e => ⟨[l0], fs, Except.error e⟩
      | Except.ok _ =>
        let fs1 := writeDoc fs output_file (JsonDoc.processedDoc processed_data)
        ⟨[l0,
          OutLine.progress ("Data processed successfully. Records: "
            ++ toString processed_records.length),
          OutLine.progress ("Output saved to: " ++ output_file)],
         fs1,
         Except.ok
           { status := "success"
             records_processed := processed_records.length
             output_file := output_file
             processing_time_ms := processed_data.metadata.processing_time_ms
             transformations_applied := processed_data.transformations }⟩
    | some _ => ⟨[l0], fs, Except.error ("KeyError")⟩

/-- The `analysis_results` dict literal of analyze_results.py lines 20-51:
one fresh timestamp, the input path and its byte size, `size/1024` rounded to
two decimals, and otherwise fixed simulated metrics, recommendations, quality
checks and summary.  `round2` models Python `round(x, 2)` on the rational
value (Python's float/banker rounding is not bit-reproduced; no claim
inspects the value beyond its functional dependence on `report_size`). -/
def round2 (q : ℚ) : ℚ := (round (q * 100) : ℚ) / 100

/-- See `round2`; the dict literal itself. -/
def analysisResults (input_file : String) (ts : String) (report_size : Nat) :
    AnalysisReport :=
  { analysis_timestamp := ts
    report_file := input_file
    report_size_bytes := report_size
    report_size_kb := round2 ((report_size : ℚ) / 1024)
    analysis_metrics :=
      { processing_efficiency := (95.5 : ℚ)
        data_quality_score := (98.2 : ℚ)
        transformation_success_rate := (100.0 : ℚ)
        performance_score := (92.8 : ℚ) }
    recommendations :=
      ["Data processing completed successfully",
       "All transformations applied correctly",
       "Performance is within acceptable limits",
       "Consider implementing parallel processing for larger datasets"]
    quality_checks :=
      { data_integrity := "PASSED"
        format_validation := "PASSED"
        completeness_check := "PASSED"
        consistency_check := "PASSED" }
    summary :=
      { total_tasks_completed := 4
        successful_tasks := 4
        failed_tasks := 0
        overall_status := "SUCCESS"
        processing_time_total := "2.5 minutes"
        data_volume_processed := "2.5MB" } }

/-- The body of `analyze_results(input_file, output_file)`
(analyze_results.py lines 12-68): print a progress line, read the input's
byte size with `os.path.getsize` (raises FileNotFoundError when the file is
missing; the content is never opened or parsed), build the fixed
AnalysisReport, create the output directory, dump it, print three more
progress lines and return the result dict. -/
def analyze_results (input_file output_file : String) (now : Nat → String) (fs : FS) :
    StageRun AnalyzeResult :=
  let l0 := OutLine.progress ("Analyzing results from: " ++ input_file)
  match fs input_file with
  | none => ⟨[l0], fs, Except.error ("[Errno 2] No such file or directory: " ++ input_file)⟩
  | some fd =>
    let report_size := fd.size
    let results := analysisResults input_file (now 0) report_size
    match makedirs (dirname output_file) with
    | Except.error e => ⟨[l0], fs, Except.error e⟩
    | Except.ok _ =>
      let fs1 := writeDoc fs output_file (JsonDoc.reportDoc results)
      ⟨[l0,
        OutLine.progress ("Analysis completed successfully"),
        OutLine.progress ("Output saved to: " ++ output_file),
        OutLine.progress ("Overall Status: " ++ results.summary.overall_status)],
       fs1,
       Except.ok
         { status := "success"
           analysis_file := output_file
           overall_status := results.summary.overall_status
           quality_score := results.analysis_metrics.data_quality_score
           recommendations_count := results.recommendations.length }⟩

/-- The `__main__` block of load_data.py lines 47-61.  `argv` models
`sys.argv[1:]` (the positional arguments after the script name); the
source's `len(sys.argv) != 3` check is `argv` not being a two-element list.
On success the result dict is printed as the `LOAD_RESULT:` line and the
process exits 0; on an exception an `Error loading data: <msg>` line is
printed and the process exits 1. -/
def load_data_main (argv : List String) (now : Nat → String) (fs : FS) :
    ProcessOutcome :=
  match argv with
  | [input_file, output_file] =>
    let run := load_data input_file output_file now fs
    match run.result with
    | Except.ok result => ⟨run.lines ++ [OutLine.loadResult result], 0, run.fs⟩
    | Except.error e => ⟨run.lines ++ [OutLine.errorLine ("loading data") e], 1, run.fs⟩
  | _ => ⟨[OutLine.usage ("Usage: python load_data.py <input_file> <output_file>")], 1, fs⟩

/-- The `__main__` block of process_data.py lines 67-81; see
`load_data_main`. -/
def process_data_main (argv : List String) (now : Nat → String) (fs : FS) :
    ProcessOutcome :=
  match argv with
  | [input_file, output_file] =>
    let run := process_data input_file output_file now fs
    match run.result with
    | Except.ok result => ⟨run.lines ++ [OutLine.processResult result], 0, run.fs⟩
    | Except.error e => ⟨run.lines ++ [OutLine.errorLine ("processing data") e], 1, run.fs⟩
  | _ => ⟨[OutLine.usage ("Usage: python process_data.py <input_file> <output_file>")], 1, fs⟩

/-- The `__main__` block of analyze_results.py lines 70-84; see
`load_data_main`. -/
def analyze_results_main (argv : List String) (now : Nat → String) (fs : FS) :
    ProcessOutcome :=
  match argv with
  | [input_file, output_file] =>
    let run := analyze_results input_file output_file now fs
    match run.result with
    | Except.ok result => ⟨run.lines ++ [OutLine.analyzeResult result], 0, run.fs⟩
    | Except.error e => ⟨run.lines ++ [OutLine.errorLine ("analyzing results") e], 1, run.fs⟩
  | _ => ⟨[OutLine.usage ("Usage: python analyze_results.py <input_file> <output_file>")], 1, fs⟩

/-- A stdout line is a free-form progress line. -/
def OutLine.isProgress : OutLine → Bool
  | OutLine.progress _ => true
  | _ => false

/-- A stdout line is one of the three machine-readable result lines. -/
def OutLine.isResult : OutLine → Bool
  | OutLine.loadResult _ => true
  | OutLine.processResult _ => true
  | OutLine.analyzeResult _ => true
  | _ => false

theorem takeBeforeLastSlash_of_no_slash : ∀ {cs : List Char}, '/' ∉ cs →
    takeBeforeLastSlash cs = none := by
  intro cs h
  induction cs with
  | nil => rfl
  | cons c rest ih =>
    rw [List.mem_cons] at h
    push_neg at h
    rw [takeBeforeLastSlash, ih h.2, if_neg (fun hc => h.1 hc.symm)]

theorem dirname_of_no_slash {p : String} (h : '/' ∉ p.toList) : dirname p = "" := by
  rw [dirname, takeBeforeLastSlash_of_no_slash h]

theorem makedirs_ok {s : String} (h : s ≠ "") : makedirs s = Except.ok () := by
  rw [makedirs, if_neg h]

theorem writeDoc_self (fs : FS) (path : String) (d : JsonDoc) :
    writeDoc fs path d path = some ⟨d.encLen, some d⟩ := by
  simp [writeDoc, writeFile]

/-- Claim C3: for every pair of input-path and output-path arguments (with an
output path naming a creatable directory), the Loader succeeds and writes a
LoadedDataset whose `data` array has length exactly 100, whose i-th record
has id `i + 1` (ids 1..100) and value `"record_"` followed by the id, and
whose `records_count` field is the fixed constant 1000 — for every filesystem
`fs`, hence regardless of the input path's content or existence (the input is
never read). -/
theorem C3_loader_fixed_dataset (input_file output_file : String) (now : Nat → String)
    (fs : FS) (h : dirname output_file ≠ "") :
    ∃ d : LoadedDataset,
      (load_data input_file output_file now fs).result =
        Except.ok { status := "success", records_loaded := 1000,
                    output_file := output_file, file_size := "2.5MB" } ∧
      (load_data input_file output_file now fs).fs output_file
        = some ⟨d.encLen, some (JsonDoc.loadedDoc d)⟩ ∧
      d.records_count = 1000 ∧
      d.data.length = 100 ∧
      (∀ i (hi : i < d.data.length),
        (d.data.get ⟨i, hi⟩).id = (i + 1 : Int) ∧
        (d.data.get ⟨i, hi⟩).value = "record_" ++ toString (i + 1)) := by
  refine ⟨sampleData input_file now, ?_, ?_, rfl, ?_, ?_⟩
  · simp [load_data, makedirs_ok h, sampleData]
  · simp only [load_data, makedirs_ok h, writeDoc_self, JsonDoc.encLen]
  · simp [sampleData]
  · intro i hi
    simp only [sampleData, List.length_map, List.length_range] at hi
    simp [sampleData, List.get_eq_getElem, List.getElem_map, List.getElem_range, hi]

theorem C3_loader_fixed_dataset_witness :
    dirname ("tmp/out.json") ≠ "" ∧
    (∃ d : LoadedDataset,
      (load_data ("in.json") "tmp/out.json" (fun _ => "T") (fun _ => none)).result =
        Except.ok { status := "success", records_loaded := 1000,
                    output_file := "tmp/out.json", file_size := "2.5MB" } ∧
      (load_data ("in.json") "tmp/out.json" (fun _ => "T") (fun _ => none)).fs ("tmp/out.json")
        = some ⟨d.encLen, some (JsonDoc.loadedDoc d)⟩ ∧
      d.records_count = 1000 ∧
      d.data.length = 100 ∧
      (∀ i (hi : i < d.data.length),
        (d.data.get ⟨i, hi⟩).id = (i + 1 : Int) ∧
        (d.data.get ⟨i, hi⟩).value = "record_" ++ toString (i + 1))) :=
  ⟨by decide,
   C3_loader_fixed_dataset ("in.json") "tmp/out.json" (fun _ => "T") (fun _ => none) (by decide)⟩

/-- Claim C9: for every successful Loader invocation, the `records_loaded`
field of the result record on the `LOAD_RESULT:` line is the declared
constant 1000, while the dataset actually written to disk has a `data` array
of length 100 — so the result line over-reports the written record count by a
factor of ten. -/
theorem C9_load_result_overreports (input_file output_file : String) (now : Nat → String)
    (fs : FS) (h : dirname output_file ≠ "") :
    ∃ (pre : List OutLine) (r : LoadResult) (d : LoadedDataset),
      (load_data_main [input_file, output_file] now fs).stdout
        = pre ++ [OutLine.loadResult r] ∧
      (load_data_main [input_file, output_file] now fs).fs output_file
        = some ⟨d.encLen, some (JsonDoc.loadedDoc d)⟩ ∧
      r.records_loaded = 1000 ∧
      d.data.length = 100 ∧
      r.records_loaded = 10 * (d.data.length : Int) := by
  refine ⟨[OutLine.progress ("Loading data from: " ++ input_file),
           OutLine.progress ("Data loaded successfully. Records: " ++ toString (1000 : Int)),
           OutLine.progress ("Output saved to: " ++ output_file)],
          { status := "success", records_loaded := 1000, output_file := output_file,
            file_size := "2.5MB" },
          sampleData input_file now, ?_, ?_, rfl, ?_, ?_⟩
  · simp [load_data_main, load_data, makedirs_ok h, sampleData]
  · simp only [load_data_main, load_data, makedirs_ok h, writeDoc_self, JsonDoc.encLen]
  · simp [sampleData]
  · simp [sampleData]

theorem C9_load_result_overreports_witness :
    dirname ("tmp/out.json") ≠ "" ∧
    (∃ (pre : List OutLine) (r : LoadResult) (d : LoadedDataset),
      (load_data_main ["in.json", "tmp/out.json"] (fun _ => "T") (fun _ => none)).stdout
        = pre ++ [OutLine.loadResult r] ∧
      (load_data_main ["in.json", "tmp/out.json"] (fun _ => "T") (fun _ => none)).fs ("tmp/out.json")
        = some ⟨d.encLen, some (JsonDoc.loadedDoc d)⟩ ∧
      r.records_loaded = 1000 ∧
      d.data.length = 100 ∧
      r.records_loaded = 10 * (d.data.length : Int)) :=
  ⟨by decide,
   C9_load_result_overreports ("in.json") "tmp/out.json" (fun _ => "T") (fun _ => none) (by decide)⟩

/-- A one-record LoadedDataset used as concrete test data. -/
def wLoaded : LoadedDataset :=
  ⟨"s.json", "t0", 5, [⟨7, "abc", "t1"⟩], ⟨"1KB", "JSON", "UTF-8"⟩⟩

/-- A concrete filesystem holding `wLoaded` (as a 10-byte JSON file) at
path `in.json`. -/
def wFS : FS :=
  fun p => if p = "in.json" then some ⟨10, some (JsonDoc.loadedDoc wLoaded)⟩ else none

/-- A concrete filesystem holding a 10-byte file at `in.json` whose bytes are
not valid JSON. -/
def wBadFS : FS := fun p => if p = "in.json" then some ⟨10, none⟩ else none

/-- The empty concrete filesystem. -/
def emptyFS : FS := fun _ => none

/-- A concrete timestamp supplier. -/
def wNow : Nat → String := fun k => "ts" ++ toString k

/-- Claim C1: for every input LoadedDataset (a data array of records each
carrying an integer id, a string value and a timestamp), the Transformer
writes a ProcessedDataset with, for each input record, a corresponding
output record whose `processed_value` is the input's `value` uppercased and
whose `id` is unchanged, and whose `processed_records_count` equals the
length of the input's `data` array. -/
theorem C1_transformer_uppercase (input_file output_file : String) (now : Nat → String)
    (fs : FS) (fd : FileData) (d : LoadedDataset)
    (hin : fs input_file = some fd) (hdoc : fd.doc = some (JsonDoc.loadedDoc d))
    (hout : dirname output_file ≠ "") :
    ∃ pd : ProcessedDataset,
      (process_data input_file output_file now fs).fs output_file
        = some ⟨pd.encLen, some (JsonDoc.processedDoc pd)⟩ ∧
      pd.processed_records_count = d.data.length ∧
      pd.data.length = d.data.length ∧
      ∀ i (hi : i < d.data.length) (hp : i < pd.data.length),
        (pd.data.get ⟨i, hp⟩).id = (d.data.get ⟨i, hi⟩).id ∧
        (pd.data.get ⟨i, hp⟩).processed_value = (d.data.get ⟨i, hi⟩).value.toUpper := by
  refine ⟨processedData input_file (now d.data.length) d
      (d.data.mapIdx (fun i r => transformRecord (now i) r)), ?_, ?_, ?_, ?_⟩
  · simp only [process_data, hin, hdoc, makedirs_ok hout, writeDoc_self, JsonDoc.encLen]
  · simp [processedData]
  · simp [processedData]
  · intro i hi hp
    simp only [processedData] at hp ⊢
    rw [List.get_mapIdx d.data (fun i r => transformRecord (now i) r) i hi]
    exact ⟨rfl, rfl⟩

theorem C1_transformer_uppercase_witness :
    wFS ("in.json") = some ⟨10, some (JsonDoc.loadedDoc wLoaded)⟩ ∧
    (FileData.mk 10 (some (JsonDoc.loadedDoc wLoaded))).doc
      = some (JsonDoc.loadedDoc wLoaded) ∧
    dirname ("tmp/o.json") ≠ "" ∧
    (∃ pd : ProcessedDataset,
      (process_data ("in.json") "tmp/o.json" wNow wFS).fs ("tmp/o.json")
        = some ⟨pd.encLen, some (JsonDoc.processedDoc pd)⟩ ∧
      pd.processed_records_count = wLoaded.data.length ∧
      pd.data.length = wLoaded.data.length ∧
      ∀ i (hi : i < wLoaded.data.length) (hp : i < pd.data.length),
        (pd.data.get ⟨i, hp⟩).id = (wLoaded.data.get ⟨i, hi⟩).id ∧
        (pd.data.get ⟨i, hp⟩).processed_value
          = (wLoaded.data.get ⟨i, hi⟩).value.toUpper) :=
  ⟨by decide, by decide, by decide,
   C1_transformer_uppercase ("in.json") "tmp/o.json" wNow wFS
     ⟨10, some (JsonDoc.loadedDoc wLoaded)⟩ wLoaded (by decide) (by decide) (by decide)⟩

/-- Claim C2: for every Analyzer invocation on an existing input file (with a
creatable output directory), the run succeeds and the written
AnalysisReport's `report_size_bytes` equals the input file's exact byte
length — for an arbitrary input file `fd`, whose content (`fd.doc`,
including the empty file `size = 0` and files that are not valid JSON,
`doc = none`) is never parsed and never consulted. -/
theorem C2_analyzer_reports_byte_size (input_file output_file : String)
    (now : Nat → String) (fs : FS) (fd : FileData)
    (hin : fs input_file = some fd) (hout : dirname output_file ≠ "") :
    ∃ (rep : AnalysisReport) (res : AnalyzeResult),
      (analyze_results input_file output_file now fs).result = Except.ok res ∧
      (analyze_results input_file output_file now fs).fs output_file
        = some ⟨rep.encLen, some (JsonDoc.reportDoc rep)⟩ ∧
      rep.report_size_bytes = fd.size := by
  refine ⟨analysisResults input_file (now 0) fd.size,
          ⟨"success", output_file, "SUCCESS", (98.2 : ℚ), 4⟩, ?_, ?_, rfl⟩
  · simp [analyze_results, hin, makedirs_ok hout, analysisResults]
  · simp only [analyze_results, hin, makedirs_ok hout, writeDoc_self, JsonDoc.encLen]

theorem C2_analyzer_reports_byte_size_witness :
    wBadFS ("in.json") = some ⟨10, none⟩ ∧
    dirname ("tmp/o.json") ≠ "" ∧
    (∃ (rep : AnalysisReport) (res : AnalyzeResult),
      (analyze_results ("in.json") "tmp/o.json" wNow wBadFS).result = Except.ok res ∧
      (analyze_results ("in.json") "tmp/o.json" wNow wBadFS).fs ("tmp/o.json")
        = some ⟨rep.encLen, some (JsonDoc.reportDoc rep)⟩ ∧
      rep.report_size_bytes = (FileData.mk 10 none).size) :=
  ⟨by decide, by decide,
   C2_analyzer_reports_byte_size ("in.json") "tmp/o.json" wNow wBadFS
     ⟨10, none⟩ (by decide) (by decide)⟩

/-- Claim C8: two Analyzer invocations on the same paths whose existing input
files have equal byte length but arbitrarily different content (and run at
arbitrarily different times) write AnalysisReports that agree on every field
except `analysis_timestamp` — in particular `analysis_metrics`,
`recommendations`, `quality_checks` and `summary` are fixed constants — and
return result records that agree on `status`, `overall_status`,
`quality_score` and `recommendations_count`. -/
theorem C8_analyzer_content_independent (input_file output_file : String)
    (now1 now2 : Nat → String) (fs1 fs2 : FS) (fd1 fd2 : FileData)
    (h1 : fs1 input_file = some fd1) (h2 : fs2 input_file = some fd2)
    (hsize : fd1.size = fd2.size) (hout : dirname output_file ≠ "") :
    ∃ (rep1 rep2 : AnalysisReport) (res1 res2 : AnalyzeResult),
      (analyze_results input_file output_file now1 fs1).fs output_file
        = some ⟨rep1.encLen, some (JsonDoc.reportDoc rep1)⟩ ∧
      (analyze_results input_file output_file now2 fs2).fs output_file
        = some ⟨rep2.encLen, some (JsonDoc.reportDoc rep2)⟩ ∧
      (analyze_results input_file output_file now1 fs1).result = Except.ok res1 ∧
      (analyze_results input_file output_file now2 fs2).result = Except.ok res2 ∧
      rep1.report_file = rep2.report_file ∧
      rep1.report_size_bytes = rep2.report_size_bytes ∧
      rep1.report_size_kb = rep2.report_size_kb ∧
      rep1.analysis_metrics = rep2.analysis_metrics ∧
      rep1.recommendations = rep2.recommendations ∧
      rep1.quality_checks = rep2.quality_checks ∧
      rep1.summary = rep2.summary ∧
      res1.status = res2.status ∧
      res1.overall_status = res2.overall_status ∧
      res1.quality_score = res2.quality_score ∧
      res1.recommendations_count = res2.recommendations_count := by
  refine ⟨analysisResults input_file (now1 0) fd1.size,
          analysisResults input_file (now2 0) fd2.size,
          ⟨"success", output_file, "SUCCESS", (98.2 : ℚ), 4⟩,
          ⟨"success", output_file, "SUCCESS", (98.2 : ℚ), 4⟩,
          ?_, ?_, ?_, ?_, rfl, hsize, ?_, rfl, rfl, rfl, rfl, rfl, rfl, rfl, rfl⟩
  · simp only [analyze_results, h1, makedirs_ok hout, writeDoc_self, JsonDoc.encLen]
  · simp only [analyze_results, h2, makedirs_ok hout, writeDoc_self, JsonDoc.encLen]
  · simp [analyze_results, h1, makedirs_ok hout, analysisResults]
  · simp [analyze_results, h2, makedirs_ok hout, analysisResults]
  · simp [analysisResults, hsize]

theorem C8_analyzer_content_independent_witness :
    wFS ("in.json") = some ⟨10, some (JsonDoc.loadedDoc wLoaded)⟩ ∧
    wBadFS ("in.json") = some ⟨10, none⟩ ∧
    (FileData.mk 10 (some (JsonDoc.loadedDoc wLoaded))).size = (FileData.mk 10 none).size ∧
    dirname ("tmp/o.json") ≠ "" ∧
    (∃ (rep1 rep2 : AnalysisReport) (res1 res2 : AnalyzeResult),
      (analyze_results ("in.json") "tmp/o.json" wNow wFS).fs ("tmp/o.json")
        = some ⟨rep1.encLen, some (JsonDoc.reportDoc rep1)⟩ ∧
      (analyze_results ("in.json") "tmp/o.json" (fun _ => "U") wBadFS).fs ("tmp/o.json")
        = some ⟨rep2.encLen, some (JsonDoc.reportDoc rep2)⟩ ∧
      (analyze_results ("in.json") "tmp/o.json" wNow wFS).result = Except.ok res1 ∧
      (analyze_results ("in.json") "tmp/o.json" (fun _ => "U") wBadFS).result = Except.ok res2 ∧
      rep1.report_file = rep2.report_file ∧
      rep1.report_size_bytes = rep2.report_size_bytes ∧
      rep1.report_size_kb = rep2.report_size_kb ∧
      rep1.analysis_metrics = rep2.analysis_metrics ∧
      rep1.recommendations = rep2.recommendations ∧
      rep1.quality_checks = rep2.quality_checks ∧
      rep1.summary = rep2.summary ∧
      res1.status = res2.status ∧
      res1.overall_status = res2.overall_status ∧
      res1.quality_score = res2.quality_score ∧
      res1.recommendations_count = res2.recommendations_count) :=
  ⟨by decide, by decide, by decide, by decide,
   C8_analyzer_content_independent ("in.json") "tmp/o.json" wNow (fun _ => "U") wFS wBadFS
     ⟨10, some (JsonDoc.loadedDoc wLoaded)⟩ ⟨10, none⟩
     (by decide) (by decide) (by decide) (by decide)⟩

/-- Claim C5: for every stage and every invocation whose positional-argument
count is not exactly two, the stage prints (only) a usage line, exits with
code 1, leaves the filesystem unchanged (no output file), and emits no
result line. -/
theorem C5_bad_arity (argv : List String) (now : Nat → String) (fs : FS)
    (h : argv.length ≠ 2) :
    load_data_main argv now fs
      = ⟨[OutLine.usage ("Usage: python load_data.py <input_file> <output_file>")], 1, fs⟩ ∧
    process_data_main argv now fs
      = ⟨[OutLine.usage ("Usage: python process_data.py <input_file> <output_file>")], 1, fs⟩ ∧
    analyze_results_main argv now fs
      = ⟨[OutLine.usage ("Usage: python analyze_results.py <input_file> <output_file>")], 1,
         fs⟩ := by
  match argv with
  | [] => exact ⟨rfl, rfl, rfl⟩
  | [a] => exact ⟨rfl, rfl, rfl⟩
  | [a, b] => exact absurd rfl h
  | a :: b :: c :: t => exact ⟨rfl, rfl, rfl⟩

theorem C5_bad_arity_witness :
    ([] : List String).length ≠ 2 ∧
    (load_data_main [] wNow emptyFS
      = ⟨[OutLine.usage ("Usage: python load_data.py <input_file> <output_file>")], 1,
         emptyFS⟩ ∧
    process_data_main [] wNow emptyFS
      = ⟨[OutLine.usage ("Usage: python process_data.py <input_file> <output_file>")], 1,
         emptyFS⟩ ∧
    analyze_results_main [] wNow emptyFS
      = ⟨[OutLine.usage ("Usage: python analyze_results.py <input_file> <output_file>")], 1,
         emptyFS⟩) :=
  ⟨by decide, C5_bad_arity [] wNow emptyFS (by decide)⟩

/-- Claim C6: for every Transformer invocation whose input file exists but is
not valid JSON, the process exits with code 1 and the filesystem is
completely unchanged (in particular no output file is created and a
pre-existing file at the output path is untouched), and no result line is
printed: the parse failure occurs before any write. -/
theorem C6_transformer_invalid_json (input_file output_file : String) (now : Nat → String)
    (fs : FS) (sz : Nat) (hin : fs input_file = some ⟨sz, none⟩) :
    (process_data_main [input_file, output_file] now fs).exitCode = 1 ∧
    (process_data_main [input_file, output_file] now fs).fs = fs ∧
    (∀ l ∈ (process_data_main [input_file, output_file] now fs).stdout,
      l.isResult = false) := by
  refine ⟨?_, ?_, ?_⟩ <;>
    simp [process_data_main, process_data, hin, OutLine.isResult]

theorem C6_transformer_invalid_json_witness :
    wBadFS ("in.json") = some ⟨10, none⟩ ∧
    ((process_data_main ["in.json", "tmp/o.json"] wNow wBadFS).exitCode = 1 ∧
     (process_data_main ["in.json", "tmp/o.json"] wNow wBadFS).fs = wBadFS ∧
     (∀ l ∈ (process_data_main ["in.json", "tmp/o.json"] wNow wBadFS).stdout,
       l.isResult = false)) :=
  ⟨by decide,
   C6_transformer_invalid_json ("in.json") "tmp/o.json" wNow wBadFS 10 (by decide)⟩

/-- Claim C10: for every stage, when the output-path argument contains no
path separator (a bare filename), the invocation exits with code 1 and
leaves the filesystem unchanged — even on an otherwise fully writable
filesystem — because `os.makedirs` is invoked on the empty string that
`os.path.dirname` extracts from such a path. -/
theorem C10_bare_output_filename (input_file output_file : String) (now : Nat → String)
    (fs : FS) (h : '/' ∉ output_file.toList) :
    ((load_data_main [input_file, output_file] now fs).exitCode = 1 ∧
     (load_data_main [input_file, output_file] now fs).fs = fs) ∧
    ((process_data_main [input_file, output_file] now fs).exitCode = 1 ∧
     (process_data_main [input_file, output_file] now fs).fs = fs) ∧
    ((analyze_results_main [input_file, output_file] now fs).exitCode = 1 ∧
     (analyze_results_main [input_file, output_file] now fs).fs = fs) := by
  have hd : dirname output_file = "" := dirname_of_no_slash h
  refine ⟨?_, ?_, ?_⟩
  · constructor <;> simp [load_data_main, load_data, hd, makedirs]
  · rcases hfs : fs input_file with _ | fd
    · constructor <;> simp [process_data_main, process_data, hfs]
    · rcases hdoc : fd.doc with _ | doc
      · constructor <;> simp [process_data_main, process_data, hfs, hdoc]
      · cases doc <;>
          (constructor <;> simp [process_data_main, process_data, hfs, hdoc, hd, makedirs])
  · rcases hfs : fs input_file with _ | fd
    · constructor <;> simp [analyze_results_main, analyze_results, hfs]
    · constructor <;> simp [analyze_results_main, analyze_results, hfs, hd, makedirs]

theorem C10_bare_output_filename_witness :
    '/' ∉ ("out.json").toList ∧
    (((load_data_main ["in.json", "out.json"] wNow wFS).exitCode = 1 ∧
      (load_data_main ["in.json", "out.json"] wNow wFS).fs = wFS) ∧
     ((process_data_main ["in.json", "out.json"] wNow wFS).exitCode = 1 ∧
      (process_data_main ["in.json", "out.json"] wNow wFS).fs = wFS) ∧
     ((analyze_results_main ["in.json", "out.json"] wNow wFS).exitCode = 1 ∧
      (analyze_results_main ["in.json", "out.json"] wNow wFS).fs = wFS)) :=
  ⟨by decide, C10_bare_output_filename ("in.json") "out.json" wNow wFS (by decide)⟩

/-- Claim C4: for every stage invoked with exactly two positional arguments,
either the run succeeds: exit code 0 and stdout is free-form progress lines
followed by exactly one final result line of the stage's kind
(`LOAD_RESULT:`, `PROCESS_RESULT:` or `ANALYZE_RESULT:` respectively) — or
it fails: exit code 1 and stdout is progress lines followed by a final
`Error <verb-ing> <noun>: <message>` line (`loading data`,
`processing data`, `analyzing results` respectively), with no result line
emitted. -/
theorem C4_stdout_protocol (input_file output_file : String) (now : Nat → String)
    (fs : FS) :
    (((load_data_main [input_file, output_file] now fs).exitCode = 0 ∧
      ∃ pre r, (load_data_main [input_file, output_file] now fs).stdout
          = pre ++ [OutLine.loadResult r] ∧ ∀ l ∈ pre, l.isProgress = true) ∨
     ((load_data_main [input_file, output_file] now fs).exitCode = 1 ∧
      ∃ pre msg, (load_data_main [input_file, output_file] now fs).stdout
          = pre ++ [OutLine.errorLine ("loading data") msg] ∧
        ∀ l ∈ pre, l.isProgress = true)) ∧
    (((process_data_main [input_file, output_file] now fs).exitCode = 0 ∧
      ∃ pre r, (process_data_main [input_file, output_file] now fs).stdout
          = pre ++ [OutLine.processResult r] ∧ ∀ l ∈ pre, l.isProgress = true) ∨
     ((process_data_main [input_file, output_file] now fs).exitCode = 1 ∧
      ∃ pre msg, (process_data_main [input_file, output_file] now fs).stdout
          = pre ++ [OutLine.errorLine ("processing data") msg] ∧
        ∀ l ∈ pre, l.isProgress = true)) ∧
    (((analyze_results_main [input_file, output_file] now fs).exitCode = 0 ∧
      ∃ pre r, (analyze_results_main [input_file, output_file] now fs).stdout
          = pre ++ [OutLine.analyzeResult r] ∧ ∀ l ∈ pre, l.isProgress = true) ∨
     ((analyze_results_main [input_file, output_file] now fs).exitCode = 1 ∧
      ∃ pre msg, (analyze_results_main [input_file, output_file] now fs).stdout
          = pre ++ [OutLine.errorLine ("analyzing results") msg] ∧
        ∀ l ∈ pre, l.isProgress = true)) := by
  refine ⟨?_, ?_, ?_⟩
  · by_cases hd : dirname output_file = ""
    · refine Or.inr ⟨?_, [OutLine.progress ("Loading data from: " ++ input_file)],
        ("[Errno 2] No such file or directory"), ?_, ?_⟩ <;>
        simp [load_data_main, load_data, hd, makedirs, OutLine.isProgress]
    · refine Or.inl ⟨?_, [OutLine.progress ("Loading data from: " ++ input_file),
        OutLine.progress ("Data loaded successfully. Records: " ++ toString (1000 : Int)),
        OutLine.progress ("Output saved to: " ++ output_file)],
        ⟨"success", 1000, output_file, "2.5MB"⟩, ?_, ?_⟩ <;>
        simp [load_data_main, load_data, makedirs_ok hd, sampleData, OutLine.isProgress]
  · rcases hfs : fs input_file with _ | fd
    · refine Or.inr ⟨?_, [OutLine.progress ("Processing data from: " ++ input_file)],
        ("[Errno 2] No such file or directory: " ++ input_file), ?_, ?_⟩ <;>
        simp [process_data_main, process_data, hfs, OutLine.isProgress]
    · rcases hdoc : fd.doc with _ | doc
      · refine Or.inr ⟨?_, [OutLine.progress ("Processing data from: " ++ input_file)],
          ("Expecting value: line 1 column 1 (char 0)"), ?_, ?_⟩ <;>
          simp [process_data_main, process_data, hfs, hdoc, OutLine.isProgress]
      · cases doc with
        | loadedDoc d =>
          by_cases hd : dirname output_file = ""
          · refine Or.inr ⟨?_, [OutLine.progress ("Processing data from: " ++ input_file)],
              ("[Errno 2] No such file or directory"), ?_, ?_⟩ <;>
              simp [process_data_main, process_data, hfs, hdoc, hd, makedirs,
                OutLine.isProgress]
          · refine Or.inl ⟨?_, [OutLine.progress ("Processing data from: " ++ input_file),
              OutLine.progress ("Data processed successfully. Records: "
                ++ toString (d.data.mapIdx (fun i r => transformRecord (now i) r)).length),
              OutLine.progress ("Output saved to: " ++ output_file)],
              ⟨"success", (d.data.mapIdx (fun i r => transformRecord (now i) r)).length,
               output_file, 150,
               ["uppercase_conversion", "timestamp_normalization"]⟩, ?_, ?_⟩ <;>
              simp [process_data_main, process_data, hfs, hdoc, makedirs_ok hd,
                processedData, OutLine.isProgress]
        | processedDoc d =>
          refine Or.inr ⟨?_, [OutLine.progress ("Processing data from: " ++ input_file)],
            ("KeyError"), ?_, ?_⟩ <;>
            simp [process_data_main, process_data, hfs, hdoc, OutLine.isProgress]
        | reportDoc r =>
          refine Or.inr ⟨?_, [OutLine.progress ("Processing data from: " ++ input_file)],
            ("KeyError"), ?_, ?_⟩ <;>
            simp [process_data_main, process_data, hfs, hdoc, OutLine.isProgress]
        | otherDoc tag =>
          refine Or.inr ⟨?_, [OutLine.progress ("Processing data from: " ++ input_file)],
            ("KeyError"), ?_, ?_⟩ <;>
            simp [process_data_main, process_data, hfs, hdoc, OutLine.isProgress]
  · rcases hfs : fs input_file with _ | fd
    · refine Or.inr ⟨?_, [OutLine.progress ("Analyzing results from: " ++ input_file)],
        ("[Errno 2] No such file or directory: " ++ input_file), ?_, ?_⟩ <;>
        simp [analyze_results_main, analyze_results, hfs, OutLine.isProgress]
    · by_cases hd : dirname output_file = ""
      · refine Or.inr ⟨?_, [OutLine.progress ("Analyzing results from: " ++ input_file)],
          ("[Errno 2] No such file or directory"), ?_, ?_⟩ <;>
          simp [analyze_results_main, analyze_results, hfs, hd, makedirs,
            OutLine.isProgress]
      · refine Or.inl ⟨?_, [OutLine.progress ("Analyzing results from: " ++ input_file),
          OutLine.progress ("Analysis completed successfully"),
          OutLine.progress ("Output saved to: " ++ output_file),
          OutLine.progress ("Overall Status: SUCCESS")],
          ⟨"success", output_file, "SUCCESS", (98.2 : ℚ), 4⟩, ?_, ?_⟩ <;>
          simp [analyze_results_main, analyze_results, hfs, makedirs_ok hd,
            analysisResults, OutLine.isProgress]

/-- Stage one of the concrete end-to-end pipeline run: the Loader, writing
into the shared directory `pipe/`, starting from an empty filesystem. -/
def pipelineRun1 : ProcessOutcome :=
  load_data_main ["input.json", "pipe/loaded.json"] wNow emptyFS

/-- Stage two of the concrete end-to-end run: the Transformer on the
Loader's output file. -/
def pipelineRun2 : ProcessOutcome :=
  process_data_main ["pipe/loaded.json", "pipe/processed.json"] wNow pipelineRun1.fs

/-- Stage three of the concrete end-to-end run: the Analyzer on the
Transformer's output file. -/
def pipelineRun3 : ProcessOutcome :=
  analyze_results_main ["pipe/processed.json", "pipe/analysis.json"] wNow pipelineRun2.fs

/-- Claim C7: running Loader, then Transformer on the Loader's output, then
Analyzer on the Transformer's output, with output paths in a shared writable
directory, exits with code 0 at every stage, leaves all three files on disk,
and the Analyzer's stdout contains an `ANALYZE_RESULT:` line whose `status`
field is `"success"`. -/
theorem C7_pipeline_end_to_end :
    pipelineRun1.exitCode = 0 ∧ pipelineRun2.exitCode = 0 ∧ pipelineRun3.exitCode = 0 ∧
    (pipelineRun3.fs ("pipe/loaded.json")).isSome = true ∧
    (pipelineRun3.fs ("pipe/processed.json")).isSome = true ∧
    (pipelineRun3.fs ("pipe/analysis.json")).isSome = true ∧
    ∃ r : AnalyzeResult,
      OutLine.analyzeResult r ∈ pipelineRun3.stdout ∧ r.status = "success" := by
  refine ⟨rfl, rfl, rfl, rfl, rfl, rfl,
    ⟨"success", "pipe/analysis.json", "SUCCESS", (98.2 : ℚ), 4⟩, ?_, rfl⟩
  have hs : pipelineRun3.stdout
      = [OutLine.progress ("Analyzing results from: pipe/processed.json"),
         OutLine.progress ("Analysis completed successfully"),
         OutLine.progress ("Output saved to: pipe/analysis.json"),
         OutLine.progress ("Overall Status: SUCCESS"),
         OutLine.analyzeResult
           ⟨"success", "pipe/analysis.json", "SUCCESS", (98.2 : ℚ), 4⟩] := rfl
  rw [hs]
  simp

end ProcessOrchestrator
